import Mathlib

/-
  Verification of the mptcpd path-manager core.

  Shallow embedding of two source files:
  - src/src/path_manager.c : generic-netlink MPTCP event decoding
    (attribute walking, length validation, required-attribute checks).
  - src/lib/plugin.c : plugin registry and per-connection dispatch
    (name-to-ops registry, token-to-ops binding, default ops selection).

  Netlink attributes are modelled as (type, declared length, payload
  bytes).  Integer-valued attributes (token, ports, address ids) are
  kept as their raw payload byte lists; the C code merely reinterprets
  the payload pointer, so byte-list equality coincides with value
  equality.  Each decode handler returns the logs it emitted plus an
  outcome: ok (the decoded record was handed to the plugin dispatch
  layer), drop (the handler returned before dispatching), or abort
  (a C assert failed, terminating the process).
-/

namespace Mptcpd

/-! ## Netlink attribute model -/

/-- One generic netlink attribute as seen by the event decoder:
a numeric type tag, the declared payload length, and the payload
bytes.  A NULL payload pointer is modelled by the empty list. -/
structure Attr where
  typ : Nat
  len : Nat
  data : List Nat
deriving DecidableEq

/-- MPTCP_ATTR_TOKEN from linux/mptcp.h. -/
def MPTCP_ATTR_TOKEN : Nat := 1

/-- MPTCP_ATTR_FAMILY from linux/mptcp.h. -/
def MPTCP_ATTR_FAMILY : Nat := 2

/-- MPTCP_ATTR_LOC_ID from linux/mptcp.h. -/
def MPTCP_ATTR_LOC_ID : Nat := 3

/-- MPTCP_ATTR_REM_ID from linux/mptcp.h. -/
def MPTCP_ATTR_REM_ID : Nat := 4

/-- MPTCP_ATTR_SADDR4 from linux/mptcp.h. -/
def MPTCP_ATTR_SADDR4 : Nat := 5

/-- MPTCP_ATTR_SADDR6 from linux/mptcp.h. -/
def MPTCP_ATTR_SADDR6 : Nat := 6

/-- MPTCP_ATTR_DADDR4 from linux/mptcp.h. -/
def MPTCP_ATTR_DADDR4 : Nat := 7

/-- MPTCP_ATTR_DADDR6 from linux/mptcp.h. -/
def MPTCP_ATTR_DADDR6 : Nat := 8

/-- MPTCP_ATTR_SPORT from linux/mptcp.h. -/
def MPTCP_ATTR_SPORT : Nat := 9

/-- MPTCP_ATTR_DPORT from linux/mptcp.h. -/
def MPTCP_ATTR_DPORT : Nat := 10

/-- MPTCP_ATTR_BACKUP from linux/mptcp.h (zero-payload flag). -/
def MPTCP_ATTR_BACKUP : Nat := 11

/-- The schema-gated path-manager-name attribute
(MPTCPD_ENABLE_PM_NAME builds); any tag distinct from the others. -/
def MPTCP_ATTR_PATH_MANAGER : Nat := 12

/-- sizeof(mptcpd_token_t), a uint32_t. -/
def TOKEN_SIZE : Nat := 4

/-- sizeof(mptcpd_aid_t), a uint8_t. -/
def AID_SIZE : Nat := 1

/-- sizeof(struct in_addr). -/
def IN_ADDR_SIZE : Nat := 4

/-- sizeof(struct in6_addr). -/
def IN6_ADDR_SIZE : Nat := 16

/-- sizeof(in_port_t), a uint16_t. -/
def PORT_SIZE : Nat := 2

/-- MPTCP_PM_NAME_LEN, which defaults to GENL_NAMSIZ. -/
def MPTCP_PM_NAME_LEN : Nat := 16

/-- MPTCP_EVENT_CREATED command id. -/
def MPTCP_EVENT_CREATED : Nat := 1

/-- MPTCP_EVENT_ESTABLISHED command id. -/
def MPTCP_EVENT_ESTABLISHED : Nat := 2

/-- MPTCP_EVENT_CLOSED command id. -/
def MPTCP_EVENT_CLOSED : Nat := 3

/-- MPTCP_EVENT_ANNOUNCED command id. -/
def MPTCP_EVENT_ANNOUNCED : Nat := 6

/-- MPTCP_EVENT_REMOVED command id. -/
def MPTCP_EVENT_REMOVED : Nat := 7

/-- MPTCP_EVENT_SUB_ESTABLISHED command id. -/
def MPTCP_EVENT_SUB_ESTABLISHED : Nat := 10

/-- MPTCP_EVENT_SUB_CLOSED command id. -/
def MPTCP_EVENT_SUB_CLOSED : Nat := 11

/-- MPTCP_EVENT_SUB_PRIORITY command id. -/
def MPTCP_EVENT_SUB_PRIORITY : Nat := 13

/-- Log messages the decoder can emit (l_error and l_warn calls in
src/src/path_manager.c).  unknownAttr is the only warn-level entry;
every other constructor is an error-level log. -/
inductive DLog where
  | attrLen (actual expected : Nat)
  | pmNameLen (actual : Nat)
  | unknownAttr (event typ : Nat)
  | requiredMissing (event : Nat)
  | unimplemented (event : Nat)
deriving DecidableEq

/-- Severity of a decoder log entry; only the unknown-attribute
message is logged at warn level in the source. -/
def DLog.isError : DLog → Bool
  | .unknownAttr _ _ => false
  | _ => true

/-- validate_attr_len from src/src/path_manager.c:74.  Compares the
declared length with the expected size and logs an error on
mismatch. -/
def validate_attr_len (actual expected : Nat) : Bool × List DLog :=
  if actual = expected then (true, []) else (false, [DLog.attrLen actual expected])

/-- The MPTCP_GET_NL_ATTR macro from src/src/path_manager.c:98: the
slot receives the payload only when the declared length equals the
expected size; otherwise the slot keeps its previous value and the
validation error is logged. -/
def mptcp_get_nl_attr (data : List Nat) (len expected : Nat)
    (slot : Option (List Nat)) : Option (List Nat) × List DLog :=
  let r := validate_attr_len len expected
  (if r.1 then some data else slot, r.2)

/-! ## Address decoding -/

/-- Address family tag of struct mptcpd_addr. -/
inductive Family where
  | v4
  | v6
deriving DecidableEq

/-- struct mptcpd_addr: family tag, stored address bytes, and the
port (kept as its raw two payload bytes). -/
structure MptcpdAddr where
  family : Family
  bytes : List Nat
  port : List Nat
deriving DecidableEq

/-- get_mptcpd_addr from src/src/path_manager.c:124.  Prefers the
IPv4 pointer when both are set.  The IPv6 branch performs
memcpy(dst, addr6 s6_addr, sizeof(first element)), which copies a
single byte; the remaining fifteen destination bytes keep whatever
the uninitialised stack variable held, modelled by the dst6 list.
Returns none exactly when the C assert (addr4 or addr6 non-NULL)
would fail. -/
def get_mptcpd_addr (addr4 addr6 : Option (List Nat)) (port : List Nat)
    (dst6 : List Nat) : Option MptcpdAddr :=
  match addr4 with
  | some a4 => some { family := Family.v4, bytes := a4, port := port }
  | none =>
    match addr6 with
    | some a6 =>
      some { family := Family.v6, bytes := a6.take 1 ++ dst6.drop 1, port := port }
    | none => none

/-! ## Decode outcomes -/

/-- Outcome of one event handler: ok means the decoded record was
passed on to the plugin dispatch layer, drop means the handler
returned before dispatching (after logging), abort means a C assert
failed and the process terminates. -/
inductive DecodeOut (ev : Type) where
  | ok (e : ev)
  | drop
  | abort
deriving DecidableEq

/-- Result of one event handler: the logs it emitted and the
outcome. -/
structure DecodeRes (ev : Type) where
  logs : List DLog
  out : DecodeOut ev
deriving DecidableEq

/-! ## MPTCP_EVENT_CREATED decoding -/

/-- The attribute slots of handle_connection_created
(src/src/path_manager.c:165): nullable pointers for each expected
attribute plus the backup flag, which starts out false. -/
structure CreatedSlots where
  token : Option (List Nat)
  laddr4 : Option (List Nat)
  laddr6 : Option (List Nat)
  lport : Option (List Nat)
  raddr4 : Option (List Nat)
  raddr6 : Option (List Nat)
  rport : Option (List Nat)
  pm_name : Option (List Nat)
  backup : Bool
deriving DecidableEq

/-- Initial slot state of handle_connection_created: every pointer
NULL, backup false. -/
def CreatedSlots.start : CreatedSlots :=
  { token := none, laddr4 := none, laddr6 := none, lport := none,
    raddr4 := none, raddr6 := none, rport := none, pm_name := none,
    backup := false }

/-- One iteration of the attribute loop in handle_connection_created
(src/src/path_manager.c:179).  The BACKUP case mirrors the two
asserts: a non-zero length logs the validation error and then fails
assert(validate_attr_len(len, 0)); a zero length with a non-NULL
payload fails assert(data == NULL).  The PATH_MANAGER case mirrors
get_pm_name: a NULL payload silently leaves the name NULL, a bad
length logs the validation error plus a second error and leaves the
name NULL. -/
def created_step (st : CreatedSlots × List DLog) (a : Attr) :
    Except (List DLog) (CreatedSlots × List DLog) :=
  if a.typ = MPTCP_ATTR_TOKEN then
    let r := mptcp_get_nl_attr a.data a.len TOKEN_SIZE st.1.token
    Except.ok ({ st.1 with token := r.1 }, st.2 ++ r.2)
  else if a.typ = MPTCP_ATTR_SADDR4 then
    let r := mptcp_get_nl_attr a.data a.len IN_ADDR_SIZE st.1.laddr4
    Except.ok ({ st.1 with laddr4 := r.1 }, st.2 ++ r.2)
  else if a.typ = MPTCP_ATTR_SADDR6 then
    let r := mptcp_get_nl_attr a.data a.len IN6_ADDR_SIZE st.1.laddr6
    Except.ok ({ st.1 with laddr6 := r.1 }, st.2 ++ r.2)
  else if a.typ = MPTCP_ATTR_SPORT then
    let r := mptcp_get_nl_attr a.data a.len PORT_SIZE st.1.lport
    Except.ok ({ st.1 with lport := r.1 }, st.2 ++ r.2)
  else if a.typ = MPTCP_ATTR_DADDR4 then
    let r := mptcp_get_nl_attr a.data a.len IN_ADDR_SIZE st.1.raddr4
    Except.ok ({ st.1 with raddr4 := r.1 }, st.2 ++ r.2)
  else if a.typ = MPTCP_ATTR_DADDR6 then
    let r := mptcp_get_nl_attr a.data a.len IN6_ADDR_SIZE st.1.raddr6
    Except.ok ({ st.1 with raddr6 := r.1 }, st.2 ++ r.2)
  else if a.typ = MPTCP_ATTR_DPORT then
    let r := mptcp_get_nl_attr a.data a.len PORT_SIZE st.1.rport
    Except.ok ({ st.1 with rport := r.1 }, st.2 ++ r.2)
  else if a.typ = MPTCP_ATTR_PATH_MANAGER then
    if a.data = [] then
      Except.ok ({ st.1 with pm_name := none }, st.2)
    else
      let r := validate_attr_len a.len MPTCP_PM_NAME_LEN
      if r.1 then
        Except.ok ({ st.1 with pm_name := some a.data }, st.2 ++ r.2)
      else
        Except.ok ({ st.1 with pm_name := none },
                   st.2 ++ r.2 ++ [DLog.pmNameLen a.len])
  else if a.typ = MPTCP_ATTR_BACKUP then
    let r := validate_attr_len a.len 0
    if r.1 then
      if a.data = [] then
        Except.ok ({ st.1 with backup := true }, st.2 ++ r.2)
      else
        Except.error (st.2 ++ r.2)
    else
      Except.error (st.2 ++ r.2)
  else
    Except.ok (st.1, st.2 ++ [DLog.unknownAttr MPTCP_EVENT_CREATED a.typ])

/-- The attribute loop of handle_connection_created: runs
created_step over the message, stopping at the first assert
failure. -/
def created_fold (st : CreatedSlots × List DLog) :
    List Attr → Except (List DLog) (CreatedSlots × List DLog)
  | [] => Except.ok st
  | a :: rest =>
    match created_step st a with
    | Except.ok st2 => created_fold st2 rest
    | Except.error e => Except.error e

/-- The required-attribute check of handle_connection_created
(src/src/path_manager.c:225): token, a local v4-or-v6 address, the
local port, a remote v4-or-v6 address, and the remote port. -/
def createdRequired (s : CreatedSlots) : Bool :=
  s.token.isSome && (s.laddr4.isSome || s.laddr6.isSome) && s.lport.isSome
    && (s.raddr4.isSome || s.raddr6.isSome) && s.rport.isSome

/-- The decoded record handed to mptcpd_plugin_new_connection. -/
structure CreatedEv where
  pm_name : Option (List Nat)
  token : List Nat
  laddr : Option MptcpdAddr
  raddr : Option MptcpdAddr
  backup : Bool
deriving DecidableEq

/-- handle_connection_created from src/src/path_manager.c:145.  The
two dst6 arguments stand for the uninitialised bytes of the stack
variables laddr and raddr that get_mptcpd_addr may leave in
place. -/
def handle_connection_created (msg : List Attr) (ldst6 rdst6 : List Nat) :
    DecodeRes CreatedEv :=
  match created_fold (CreatedSlots.start, []) msg with
  | Except.error logs => { logs := logs, out := DecodeOut.abort }
  | Except.ok (s, logs) =>
    if createdRequired s then
      { logs := logs,
        out := DecodeOut.ok
          { pm_name := s.pm_name,
            token := s.token.getD [],
            laddr := get_mptcpd_addr s.laddr4 s.laddr6 (s.lport.getD []) ldst6,
            raddr := get_mptcpd_addr s.raddr4 s.raddr6 (s.rport.getD []) rdst6,
            backup := s.backup } }
    else
      { logs := logs ++ [DLog.requiredMissing MPTCP_EVENT_CREATED],
        out := DecodeOut.drop }

/-! ## MPTCP_EVENT_ANNOUNCED decoding -/

/-- The attribute slots of handle_new_addr
(src/src/path_manager.c:325). -/
structure AnnouncedSlots where
  token : Option (List Nat)
  address_id : Option (List Nat)
  addr4 : Option (List Nat)
  addr6 : Option (List Nat)
  port : Option (List Nat)
deriving DecidableEq

/-- Initial slot state of handle_new_addr: every pointer NULL. -/
def AnnouncedSlots.start : AnnouncedSlots :=
  { token := none, address_id := none, addr4 := none, addr6 := none,
    port := none }

/-- One iteration of the attribute loop in handle_new_addr
(src/src/path_manager.c:335). -/
def announced_step (st : AnnouncedSlots × List DLog) (a : Attr) :
    AnnouncedSlots × List DLog :=
  if a.typ = MPTCP_ATTR_TOKEN then
    let r := mptcp_get_nl_attr a.data a.len TOKEN_SIZE st.1.token
    ({ st.1 with token := r.1 }, st.2 ++ r.2)
  else if a.typ = MPTCP_ATTR_REM_ID then
    let r := mptcp_get_nl_attr a.data a.len AID_SIZE st.1.address_id
    ({ st.1 with address_id := r.1 }, st.2 ++ r.2)
  else if a.typ = MPTCP_ATTR_DADDR4 then
    let r := mptcp_get_nl_attr a.data a.len IN_ADDR_SIZE st.1.addr4
    ({ st.1 with addr4 := r.1 }, st.2 ++ r.2)
  else if a.typ = MPTCP_ATTR_DADDR6 then
    let r := mptcp_get_nl_attr a.data a.len IN6_ADDR_SIZE st.1.addr6
    ({ st.1 with addr6 := r.1 }, st.2 ++ r.2)
  else if a.typ = MPTCP_ATTR_DPORT then
    let r := mptcp_get_nl_attr a.data a.len PORT_SIZE st.1.port
    ({ st.1 with port := r.1 }, st.2 ++ r.2)
  else
    (st.1, st.2 ++ [DLog.unknownAttr MPTCP_EVENT_ANNOUNCED a.typ])

/-- The attribute loop of handle_new_addr. -/
def announced_fold (st : AnnouncedSlots × List DLog) :
    List Attr → AnnouncedSlots × List DLog
  | [] => st
  | a :: rest => announced_fold (announced_step st a) rest

/-- The required-attribute check of handle_new_addr
(src/src/path_manager.c:360): token, remote address id, a remote
v4-or-v6 address, and the remote port. -/
def announcedRequired (s : AnnouncedSlots) : Bool :=
  s.token.isSome && s.address_id.isSome
    && (s.addr4.isSome || s.addr6.isSome) && s.port.isSome

/-- The decoded record handed to mptcpd_plugin_new_address. -/
structure AnnouncedEv where
  token : List Nat
  address_id : List Nat
  addr : Option MptcpdAddr
deriving DecidableEq

/-- handle_new_addr from src/src/path_manager.c:309.  The dst6
argument stands for the uninitialised bytes of the stack variable
addr. -/
def handle_new_addr (msg : List Attr) (dst6 : List Nat) :
    DecodeRes AnnouncedEv :=
  let r := announced_fold (AnnouncedSlots.start, []) msg
  if announcedRequired r.1 then
    { logs := r.2,
      out := DecodeOut.ok
        { token := r.1.token.getD [],
          address_id := r.1.address_id.getD [],
          addr := get_mptcpd_addr r.1.addr4 r.1.addr6 (r.1.port.getD []) dst6 } }
  else
    { logs := r.2 ++ [DLog.requiredMissing MPTCP_EVENT_ANNOUNCED],
      out := DecodeOut.drop }

/-- The per-attribute-type expected size used by the announced-event
loop, as passed to validate_attr_len by each MPTCP_GET_NL_ATTR use
in handle_new_addr; none for attribute types the loop does not
decode. -/
def announcedExpected (typ : Nat) : Option Nat :=
  if typ = MPTCP_ATTR_TOKEN then some TOKEN_SIZE
  else if typ = MPTCP_ATTR_REM_ID then some AID_SIZE
  else if typ = MPTCP_ATTR_DADDR4 then some IN_ADDR_SIZE
  else if typ = MPTCP_ATTR_DADDR6 then some IN6_ADDR_SIZE
  else if typ = MPTCP_ATTR_DPORT then some PORT_SIZE
  else none

/-! ## Unimplemented event handlers -/

/-- handle_connection_established from src/src/path_manager.c:253:
logs that it is currently unimplemented and returns without
decoding or dispatching anything. -/
def handle_connection_established (_msg : List Attr) : DecodeRes Unit :=
  { logs := [DLog.unimplemented MPTCP_EVENT_ESTABLISHED],
    out := DecodeOut.drop }

/-- handle_addr_removed from src/src/path_manager.c:380: logs that
it is currently unimplemented and returns without decoding or
dispatching anything. -/
def handle_addr_removed (_msg : List Attr) : DecodeRes Unit :=
  { logs := [DLog.unimplemented MPTCP_EVENT_REMOVED],
    out := DecodeOut.drop }

/-- handle_priority_changed from src/src/path_manager.c:569: logs
that it is currently unimplemented and returns without decoding or
dispatching anything. -/
def handle_priority_changed (_msg : List Attr) : DecodeRes Unit :=
  { logs := [DLog.unimplemented MPTCP_EVENT_SUB_PRIORITY],
    out := DecodeOut.drop }

/-! ## Plugin registry and dispatch (src/lib/plugin.c) -/

/-- struct mptcpd_plugin_ops: an identifier standing for the ops
record address (the registry stores borrowed pointers, so record
identity is pointer identity) plus one flag per nullable hook saying
whether that hook is set. -/
structure PluginOps where
  id : Nat
  new_connection : Bool
  connection_established : Bool
  connection_closed : Bool
  new_address : Bool
  address_removed : Bool
  new_subflow : Bool
  subflow_closed : Bool
  subflow_priority : Bool
deriving DecidableEq

/-- Log messages the plugin layer can emit (l_error and l_warn calls
in src/lib/plugin.c). -/
inductive PLog where
  | noOpsSet
  | strategyNoExist (name : String)
  | fallingBack
  | noTokenMatch
deriving DecidableEq

/-- The process-global state of src/lib/plugin.c: the name-to-ops
registry _pm_plugins (insertion-ordered association list), the
token-to-ops map _token_to_ops (values are nullable ops pointers,
since the code can insert the NULL default), the stored default
plugin name, and _default_ops. -/
structure PluginState where
  pm_plugins : List (String × PluginOps)
  token_to_ops_map : List (Nat × Option PluginOps)
  default_name : String
  default_ops : Option PluginOps
deriving DecidableEq

/-- l_hashmap_lookup on an association list: the first entry with a
matching key, none when the key is absent. -/
def hashmap_lookup {α β : Type} [DecidableEq α] : List (α × β) → α → Option β
  | [], _ => none
  | p :: m, k => if p.1 = k then some p.2 else hashmap_lookup m k

/-- name_to_ops from src/lib/plugin.c:131: a NULL name resolves to
the default ops silently; a name missing from the registry logs two
errors and falls back on the default ops. -/
def name_to_ops (s : PluginState) (name : Option String) :
    Option PluginOps × List PLog :=
  match name with
  | none => (s.default_ops, [])
  | some n =>
    match hashmap_lookup s.pm_plugins n with
    | some ops => (some ops, [])
    | none => (s.default_ops, [PLog.strategyNoExist n, PLog.fallingBack])

/-- token_to_ops from src/lib/plugin.c:152: strict token lookup; a
missing binding (or a stored NULL) yields NULL with an error log and
never consults the default ops. -/
def token_to_ops (s : PluginState) (token : Nat) :
    Option PluginOps × List PLog :=
  match hashmap_lookup s.token_to_ops_map token with
  | some (some ops) => (some ops, [])
  | some none => (none, [PLog.noTokenMatch])
  | none => (none, [PLog.noTokenMatch])

/-- mptcpd_plugin_register_ops from src/lib/plugin.c:268: NULL name
or ops is rejected; an all-NULL ops record is warned about but
accepted; the entry is inserted; the default ops is assigned when
the name matches the stored default name, or else when this is the
first registration. -/
def mptcpd_plugin_register_ops (s : PluginState) (name : Option String)
    (ops : Option PluginOps) : PluginState × Bool × List PLog :=
  match name, ops with
  | some n, some o =>
    let warnLogs :=
      if o.new_connection || o.connection_established || o.connection_closed
          || o.new_address || o.address_removed || o.new_subflow
          || o.subflow_closed || o.subflow_priority then
        ([] : List PLog)
      else [PLog.noOpsSet]
    let first := s.pm_plugins.isEmpty
    let s1 := { s with pm_plugins := s.pm_plugins ++ [(n, o)] }
    let s2 :=
      if n = s.default_name then { s1 with default_ops := some o }
      else if first then { s1 with default_ops := some o }
      else s1
    (s2, true, warnLogs)
  | _, _ => (s, false, [])

/-- Which plugin hook a dispatch invoked. -/
inductive Hook where
  | newConnection
  | connectionEstablished
  | connectionClosed
  | newAddress
  | addressRemoved
  | newSubflow
  | subflowClosed
  | subflowPriority
deriving DecidableEq

/-- A hook invocation: the id of the ops record whose hook ran and
which hook it was. -/
structure HookCall where
  opsId : Nat
  hook : Hook
deriving DecidableEq

/-- mptcpd_plugin_new_connection from src/lib/plugin.c:318: resolve
ops by name (default fallback), insert the token binding, then
invoke the new_connection hook when the ops and the hook are
non-NULL.  The returned triple is the new global state, the logs,
and the hook invocation if one happened. -/
def mptcpd_plugin_new_connection (s : PluginState) (name : Option String)
    (token : Nat) : PluginState × List PLog × Option HookCall :=
  let r := name_to_ops s name
  let s1 := { s with token_to_ops_map := s.token_to_ops_map ++ [(token, r.1)] }
  let call :=
    match r.1 with
    | some o =>
      if o.new_connection then some { opsId := o.id, hook := Hook.newConnection }
      else none
    | none => none
  (s1, r.2, call)

/-- mptcpd_plugin_connection_established from src/lib/plugin.c:336:
strict token lookup, then invoke the hook when present.  The global
state is not modified. -/
def mptcpd_plugin_connection_established (s : PluginState) (token : Nat) :
    PluginState × List PLog × Option HookCall :=
  let r := token_to_ops s token
  let call :=
    match r.1 with
    | some o =>
      if o.connection_established then
        some { opsId := o.id, hook := Hook.connectionEstablished }
      else none
    | none => none
  (s, r.2, call)

/-- mptcpd_plugin_connection_closed from src/lib/plugin.c:347:
strict token lookup, then invoke the hook when present; the token
binding is not removed. -/
def mptcpd_plugin_connection_closed (s : PluginState) (token : Nat) :
    PluginState × List PLog × Option HookCall :=
  let r := token_to_ops s token
  let call :=
    match r.1 with
    | some o =>
      if o.connection_closed then
        some { opsId := o.id, hook := Hook.connectionClosed }
      else none
    | none => none
  (s, r.2, call)

/-- mptcpd_plugin_new_address from src/lib/plugin.c:356. -/
def mptcpd_plugin_new_address (s : PluginState) (token : Nat) :
    PluginState × List PLog × Option HookCall :=
  let r := token_to_ops s token
  let call :=
    match r.1 with
    | some o =>
      if o.new_address then some { opsId := o.id, hook := Hook.newAddress }
      else none
    | none => none
  (s, r.2, call)

/-- mptcpd_plugin_address_removed from src/lib/plugin.c:367. -/
def mptcpd_plugin_address_removed (s : PluginState) (token : Nat) :
    PluginState × List PLog × Option HookCall :=
  let r := token_to_ops s token
  let call :=
    match r.1 with
    | some o =>
      if o.address_removed then
        some { opsId := o.id, hook := Hook.addressRemoved }
      else none
    | none => none
  (s, r.2, call)

/-- mptcpd_plugin_new_subflow from src/lib/plugin.c:377. -/
def mptcpd_plugin_new_subflow (s : PluginState) (token : Nat) :
    PluginState × List PLog × Option HookCall :=
  let r := token_to_ops s token
  let call :=
    match r.1 with
    | some o =>
      if o.new_subflow then some { opsId := o.id, hook := Hook.newSubflow }
      else none
    | none => none
  (s, r.2, call)

/-- mptcpd_plugin_subflow_closed from src/lib/plugin.c:389. -/
def mptcpd_plugin_subflow_closed (s : PluginState) (token : Nat) :
    PluginState × List PLog × Option HookCall :=
  let r := token_to_ops s token
  let call :=
    match r.1 with
    | some o =>
      if o.subflow_closed then
        some { opsId := o.id, hook := Hook.subflowClosed }
      else none
    | none => none
  (s, r.2, call)

/-- mptcpd_plugin_subflow_priority from src/lib/plugin.c:402. -/
def mptcpd_plugin_subflow_priority (s : PluginState) (token : Nat) :
    PluginState × List PLog × Option HookCall :=
  let r := token_to_ops s token
  let call :=
    match r.1 with
    | some o =>
      if o.subflow_priority then
        some { opsId := o.id, hook := Hook.subflowPriority }
      else none
    | none => none
  (s, r.2, call)

/-- The eight per-connection events the decoder can hand to the
plugin layer; only the payload the dispatch functions inspect (the
optional path-manager name and the token) is carried. -/
inductive PmEvent where
  | created (name : Option String) (token : Nat)
  | established (token : Nat)
  | closed (token : Nat)
  | announced (token : Nat)
  | removed (token : Nat)
  | subEstablished (token : Nat)
  | subClosed (token : Nat)
  | subPriority (token : Nat)
deriving DecidableEq

/-- The token an event carries. -/
def PmEvent.token : PmEvent → Nat
  | .created _ t => t
  | .established t => t
  | .closed t => t
  | .announced t => t
  | .removed t => t
  | .subEstablished t => t
  | .subClosed t => t
  | .subPriority t => t

/-- For a CREATED event, the token it would bind; none otherwise. -/
def PmEvent.createdToken : PmEvent → Option Nat
  | .created _ t => some t
  | _ => none

/-- One dispatch step: routes an event to the matching
mptcpd_plugin_* entry point of src/lib/plugin.c. -/
def dispatch (s : PluginState) : PmEvent → PluginState × List PLog × Option HookCall
  | .created n t => mptcpd_plugin_new_connection s n t
  | .established t => mptcpd_plugin_connection_established s t
  | .closed t => mptcpd_plugin_connection_closed s t
  | .announced t => mptcpd_plugin_new_address s t
  | .removed t => mptcpd_plugin_address_removed s t
  | .subEstablished t => mptcpd_plugin_new_subflow s t
  | .subClosed t => mptcpd_plugin_subflow_closed s t
  | .subPriority t => mptcpd_plugin_subflow_priority s t

/-- The state after dispatching one event. -/
def dispatchStep (s : PluginState) (e : PmEvent) : PluginState :=
  (dispatch s e).1

/-- The state after dispatching a sequence of events in order. -/
def runEvents (s : PluginState) (es : List PmEvent) : PluginState :=
  es.foldl dispatchStep s

/-- One mptcpd_plugin_register_ops request. -/
structure RegReq where
  name : Option String
  ops : Option PluginOps
deriving DecidableEq

/-- Did a registration request pass the NULL checks (and hence
succeed, since l_hashmap_insert aborts rather than fail)? -/
def RegReq.successful (r : RegReq) : Bool :=
  r.name.isSome && r.ops.isSome

/-- The plugin-layer state right after mptcpd_plugin_load created
the empty registry and stored the configured default name. -/
def initPluginState (dn : String) : PluginState :=
  { pm_plugins := [], token_to_ops_map := [], default_name := dn,
    default_ops := none }

/-- The state after one registration request. -/
def regStep (s : PluginState) (r : RegReq) : PluginState :=
  (mptcpd_plugin_register_ops s r.name r.ops).1

/-- The state after a sequence of registration requests. -/
def runRegs (dn : String) (rs : List RegReq) : PluginState :=
  rs.foldl regStep (initPluginState dn)

/-- The last element of a list satisfying a predicate, if any.  Used
to characterise which registration determines the final default
ops. -/
def lastMatch {α : Type} (p : α → Bool) : List α → Option α
  | [] => none
  | a :: l =>
    match lastMatch p l with
    | some b => some b
    | none => if p a then some a else none

/-! ## Concrete fixtures used by witnesses -/

/-- An ops record with every hook set; the argument stands for the
address of the record. -/
def fullOps (i : Nat) : PluginOps :=
  { id := i, new_connection := true, connection_established := true,
    connection_closed := true, new_address := true, address_removed := true,
    new_subflow := true, subflow_closed := true, subflow_priority := true }

/-- A registry with one plugin rr that is also the default, and no
token bindings yet. -/
def wS1 : PluginState :=
  { pm_plugins := [(("rr"), fullOps 1)], token_to_ops_map := [],
    default_name := (""), default_ops := some (fullOps 1) }

/-- A registry with plugins rr (first, the default) and bw. -/
def wS2 : PluginState :=
  { pm_plugins := [(("rr"), fullOps 1), (("bw"), fullOps 2)],
    token_to_ops_map := [], default_name := (""),
    default_ops := some (fullOps 1) }

/-- A registry with one plugin and one existing token binding. -/
def wS3 : PluginState :=
  { pm_plugins := [(("rr"), fullOps 1)],
    token_to_ops_map := [(5, some (fullOps 1))],
    default_name := (""), default_ops := some (fullOps 1) }

/-- Events dispatched after a CREATED in the C1 witness: a CLOSED
for an unrelated token, a CREATED for a different token, and an
ANNOUNCED for the bound token itself. -/
def wEs1 : List PmEvent :=
  [PmEvent.closed 57005, PmEvent.created (some ("rr")) 7,
   PmEvent.announced 2712847316]

/-- State after registering plugin aa first under configured default
name dd (C9 counterexample). -/
def c9s1 : PluginState :=
  (mptcpd_plugin_register_ops (initPluginState ("dd"))
    (some ("aa")) (some (fullOps 1))).1

/-- A well-formed CREATED message: token, IPv4 local and remote
addresses, both ports, no backup flag, no path-manager name. -/
def wMsgCreatedOk : List Attr :=
  [{ typ := MPTCP_ATTR_TOKEN, len := 4, data := [1, 2, 3, 4] },
   { typ := MPTCP_ATTR_SADDR4, len := 4, data := [10, 0, 0, 1] },
   { typ := MPTCP_ATTR_SPORT, len := 2, data := [4, 210] },
   { typ := MPTCP_ATTR_DADDR4, len := 4, data := [10, 0, 0, 2] },
   { typ := MPTCP_ATTR_DPORT, len := 2, data := [0, 80] }]

/-- The same CREATED message with the remote-port attribute
omitted. -/
def wMsgCreatedNoDport : List Attr :=
  [{ typ := MPTCP_ATTR_TOKEN, len := 4, data := [1, 2, 3, 4] },
   { typ := MPTCP_ATTR_SADDR4, len := 4, data := [10, 0, 0, 1] },
   { typ := MPTCP_ATTR_SPORT, len := 2, data := [4, 210] },
   { typ := MPTCP_ATTR_DADDR4, len := 4, data := [10, 0, 0, 2] }]

/-- Slot state after walking wMsgCreatedOk. -/
def wSlotsCreatedOk : CreatedSlots :=
  { token := some [1, 2, 3, 4], laddr4 := some [10, 0, 0, 1], laddr6 := none,
    lport := some [4, 210], raddr4 := some [10, 0, 0, 2], raddr6 := none,
    rport := some [0, 80], pm_name := none, backup := false }

/-- Slot state after walking wMsgCreatedNoDport. -/
def wSlotsCreatedNoDport : CreatedSlots :=
  { token := some [1, 2, 3, 4], laddr4 := some [10, 0, 0, 1], laddr6 := none,
    lport := some [4, 210], raddr4 := some [10, 0, 0, 2], raddr6 := none,
    rport := none, pm_name := none, backup := false }

/-- The record decoded from wMsgCreatedOk. -/
def wEvCreatedOk : CreatedEv :=
  { pm_name := none, token := [1, 2, 3, 4],
    laddr := some { family := Family.v4, bytes := [10, 0, 0, 1], port := [4, 210] },
    raddr := some { family := Family.v4, bytes := [10, 0, 0, 2], port := [0, 80] },
    backup := false }

/-- An IPv6 address (2001:db8::1) as 16 network-order bytes. -/
def wAddr6 : List Nat :=
  [32, 1, 13, 184, 0, 0, 0, 0, 0, 0, 0, 0, 0, 0, 0, 1]

/-- A REM_ID attribute with declared length 2, one byte more than
sizeof(mptcpd_aid_t). -/
def wAttrRemIdLen2 : Attr :=
  { typ := MPTCP_ATTR_REM_ID, len := 2, data := [7, 8] }

/-- An ANNOUNCED message whose REM_ID has length 2 (expected 1) and
whose other attributes (token, a valid v4 address, port) are
well-formed. -/
def wMsgAnnBadRemId : List Attr :=
  [{ typ := MPTCP_ATTR_TOKEN, len := 4, data := [1, 2, 3, 4] },
   wAttrRemIdLen2,
   { typ := MPTCP_ATTR_DADDR4, len := 4, data := [192, 0, 2, 5] },
   { typ := MPTCP_ATTR_DPORT, len := 2, data := [0, 80] }]

/-- A well-formed ANNOUNCED message carrying an IPv6 remote
address. -/
def wMsgAnnV6 : List Attr :=
  [{ typ := MPTCP_ATTR_TOKEN, len := 4, data := [1, 2, 3, 4] },
   { typ := MPTCP_ATTR_REM_ID, len := 1, data := [7] },
   { typ := MPTCP_ATTR_DADDR6, len := 16, data := wAddr6 },
   { typ := MPTCP_ATTR_DPORT, len := 2, data := [0, 80] }]

/-- A CREATED message carrying both an IPv4 and an IPv6 local
address, each passing length validation. -/
def wMsgCreatedBoth : List Attr :=
  [{ typ := MPTCP_ATTR_TOKEN, len := 4, data := [1, 2, 3, 4] },
   { typ := MPTCP_ATTR_SADDR4, len := 4, data := [10, 0, 0, 1] },
   { typ := MPTCP_ATTR_SADDR6, len := 16, data := wAddr6 },
   { typ := MPTCP_ATTR_SPORT, len := 2, data := [4, 210] },
   { typ := MPTCP_ATTR_DADDR4, len := 4, data := [10, 0, 0, 2] },
   { typ := MPTCP_ATTR_DPORT, len := 2, data := [0, 80] }]

/-- Slot state after walking wMsgCreatedBoth. -/
def wSlotsCreatedBoth : CreatedSlots :=
  { token := some [1, 2, 3, 4], laddr4 := some [10, 0, 0, 1],
    laddr6 := some wAddr6, lport := some [4, 210],
    raddr4 := some [10, 0, 0, 2], raddr6 := none,
    rport := some [0, 80], pm_name := none, backup := false }

/-- The record decoded from wMsgCreatedBoth: the IPv4 address wins
and the IPv6 attribute is ignored. -/
def wEvCreatedBoth : CreatedEv :=
  { pm_name := none, token := [1, 2, 3, 4],
    laddr := some { family := Family.v4, bytes := [10, 0, 0, 1], port := [4, 210] },
    raddr := some { family := Family.v4, bytes := [10, 0, 0, 2], port := [0, 80] },
    backup := false }

/-! ## Association-list lemmas -/

lemma hashmap_lookup_append_some {α β : Type} [DecidableEq α]
    (m1 m2 : List (α × β)) (k : α) (v : β)
    (h : hashmap_lookup m1 k = some v) :
    hashmap_lookup (m1 ++ m2) k = some v := by
  induction m1 with
  | nil => simp [hashmap_lookup] at h
  | cons p m ih =>
    by_cases hp : p.1 = k
    · simpa [hashmap_lookup, hp] using h
    · simp [hashmap_lookup, hp] at h ⊢
      exact ih h

lemma hashmap_lookup_append_none {α β : Type} [DecidableEq α]
    (m1 m2 : List (α × β)) (k : α)
    (h : hashmap_lookup m1 k = none) :
    hashmap_lookup (m1 ++ m2) k = hashmap_lookup m2 k := by
  induction m1 with
  | nil => simp [hashmap_lookup]
  | cons p m ih =>
    by_cases hp : p.1 = k
    · simp [hashmap_lookup, hp] at h
    · simp [hashmap_lookup, hp] at h ⊢
      exact ih h

/-! ## Dispatch-step lemmas -/

lemma dispatchStep_created (s : PluginState) (n : Option String) (t : Nat) :
    dispatchStep s (PmEvent.created n t) =
      { s with token_to_ops_map :=
          s.token_to_ops_map ++ [(t, (name_to_ops s n).1)] } := rfl

lemma dispatchStep_of_not_created (s : PluginState) (e : PmEvent)
    (h : e.createdToken = none) : dispatchStep s e = s := by
  cases e with
  | created n t => simp [PmEvent.createdToken] at h
  | established t => rfl
  | closed t => rfl
  | announced t => rfl
  | removed t => rfl
  | subEstablished t => rfl
  | subClosed t => rfl
  | subPriority t => rfl

lemma dispatchStep_lookup_some (s : PluginState) (e : PmEvent) (t : Nat)
    (v : Option PluginOps)
    (h : hashmap_lookup s.token_to_ops_map t = some v) :
    hashmap_lookup (dispatchStep s e).token_to_ops_map t = some v := by
  cases e with
  | created n t2 =>
    rw [dispatchStep_created]
    exact hashmap_lookup_append_some _ _ _ _ h
  | established t2 => exact h
  | closed t2 => exact h
  | announced t2 => exact h
  | removed t2 => exact h
  | subEstablished t2 => exact h
  | subClosed t2 => exact h
  | subPriority t2 => exact h

lemma runEvents_lookup_some (t : Nat) (v : Option PluginOps) :
    ∀ (es : List PmEvent) (s : PluginState),
    hashmap_lookup s.token_to_ops_map t = some v →
    hashmap_lookup (runEvents s es).token_to_ops_map t = some v := by
  intro es
  induction es with
  | nil => intro s h; simpa [runEvents] using h
  | cons e es ih =>
    intro s h
    have hs : runEvents s (e :: es) = runEvents (dispatchStep s e) es := rfl
    rw [hs]
    exact ih _ (dispatchStep_lookup_some s e t v h)

/-! ## Registration lemmas -/

lemma regStep_not_successful (s : PluginState) (r : RegReq)
    (h : r.successful = false) : regStep s r = s := by
  rcases r with ⟨name, ops⟩
  cases name with
  | none => rfl
  | some n =>
    cases ops with
    | none => rfl
    | some o => simp [RegReq.successful] at h

lemma regStep_successful (s : PluginState) (n : String) (o : PluginOps) :
    regStep s { name := some n, ops := some o } =
      { s with
        pm_plugins := s.pm_plugins ++ [(n, o)],
        default_ops :=
          if n = s.default_name then some o
          else if s.pm_plugins.isEmpty then some o
          else s.default_ops } := by
  simp only [regStep, mptcpd_plugin_register_ops]
  by_cases h1 : n = s.default_name
  · simp [h1]
  · by_cases h2 : s.pm_plugins.isEmpty <;> simp [h1, h2]

lemma runRegs_default_aux (dn : String) :
    ∀ (rs : List RegReq) (s : PluginState),
    s.default_name = dn →
    (rs.foldl regStep s).default_ops =
      (match lastMatch (fun r => r.successful && decide (r.name = some dn)) rs with
       | some r => r.ops
       | none =>
         match rs.find? RegReq.successful with
         | some r => if s.pm_plugins.isEmpty then r.ops else s.default_ops
         | none => s.default_ops) := by
  intro rs
  induction rs with
  | nil => intro s _; simp [lastMatch]
  | cons r rs ih =>
    intro s hdn
    have hfold : (r :: rs).foldl regStep s = rs.foldl regStep (regStep s r) := rfl
    rw [hfold]
    by_cases hr : r.successful = true
    · rcases r with ⟨name, ops⟩
      rcases name with _ | n
      · simp [RegReq.successful] at hr
      rcases ops with _ | o
      · simp [RegReq.successful] at hr
      rw [regStep_successful]
      have hstep := ih ({ s with
          pm_plugins := s.pm_plugins ++ [(n, o)],
          default_ops :=
            if n = s.default_name then some o
            else if s.pm_plugins.isEmpty then some o
            else s.default_ops }) hdn
      rw [hstep]
      have hne : (s.pm_plugins ++ [(n, o)]).isEmpty = false := by
        simp
      cases hlast : lastMatch
          (fun r => r.successful && decide (r.name = some dn)) rs with
      | some r2 =>
        simp [lastMatch, hlast]
      | none =>
        by_cases hmatch : n = dn
        · have hp : ((⟨some n, some o⟩ : RegReq).successful
              && decide ((⟨some n, some o⟩ : RegReq).name = some dn)) = true := by
            simp [RegReq.successful, hmatch]
          simp only [lastMatch, hlast, hp, if_pos rfl]
          simp [hne, hmatch, hdn]
          cases List.find? RegReq.successful rs <;> simp
        · have hp : ((⟨some n, some o⟩ : RegReq).successful
              && decide ((⟨some n, some o⟩ : RegReq).name = some dn)) = false := by
            simp [RegReq.successful, hmatch]
          simp only [lastMatch, hlast, hp]
          have hfind : (({ name := some n, ops := some o } : RegReq) :: rs).find?
              RegReq.successful = some { name := some n, ops := some o } := by
            simp [List.find?, RegReq.successful]
          simp only [hfind, hne]
          have hnd : ¬ n = s.default_name := by rw [hdn]; exact hmatch
          by_cases hemp : s.pm_plugins.isEmpty <;>
            simp [hnd, hemp, Bool.false_eq_true, if_false] <;>
            cases List.find? RegReq.successful rs <;> simp
    · have hr2 : r.successful = false := by
        cases h : r.successful
        · rfl
        · exact absurd h hr
      rw [regStep_not_successful s r hr2]
      rw [ih s hdn]
      have hp : (r.successful && decide (r.name = some dn)) = false := by
        simp [hr2]
      have hfind : (r :: rs).find? RegReq.successful = rs.find? RegReq.successful := by
        simp [List.find?, hr2]
      simp only [lastMatch, hp, hfind]
      cases lastMatch (fun r => r.successful && decide (r.name = some dn)) rs <;>
        simp

/-! ## Decoder lemmas -/

lemma created_step_preserve (st st2 : CreatedSlots × List DLog) (a : Attr)
    (h : created_step st a = Except.ok st2) :
    (a.typ ≠ MPTCP_ATTR_DPORT → st2.1.rport = st.1.rport)
    ∧ (a.typ ≠ MPTCP_ATTR_BACKUP → st2.1.backup = st.1.backup) := by
  by_cases h1 : a.typ = MPTCP_ATTR_TOKEN
  · simp only [created_step, if_pos h1] at h
    rw [← Except.ok.inj h]
    exact ⟨fun _ => rfl, fun _ => rfl⟩
  by_cases h2 : a.typ = MPTCP_ATTR_SADDR4
  · simp only [created_step, if_neg h1, if_pos h2] at h
    rw [← Except.ok.inj h]
    exact ⟨fun _ => rfl, fun _ => rfl⟩
  by_cases h3 : a.typ = MPTCP_ATTR_SADDR6
  · simp only [created_step, if_neg h1, if_neg h2, if_pos h3] at h
    rw [← Except.ok.inj h]
    exact ⟨fun _ => rfl, fun _ => rfl⟩
  by_cases h4 : a.typ = MPTCP_ATTR_SPORT
  · simp only [created_step, if_neg h1, if_neg h2, if_neg h3, if_pos h4] at h
    rw [← Except.ok.inj h]
    exact ⟨fun _ => rfl, fun _ => rfl⟩
  by_cases h5 : a.typ = MPTCP_ATTR_DADDR4
  · simp only [created_step, if_neg h1, if_neg h2, if_neg h3, if_neg h4,
      if_pos h5] at h
    rw [← Except.ok.inj h]
    exact ⟨fun _ => rfl, fun _ => rfl⟩
  by_cases h6 : a.typ = MPTCP_ATTR_DADDR6
  · simp only [created_step, if_neg h1, if_neg h2, if_neg h3, if_neg h4,
      if_neg h5, if_pos h6] at h
    rw [← Except.ok.inj h]
    exact ⟨fun _ => rfl, fun _ => rfl⟩
  by_cases h7 : a.typ = MPTCP_ATTR_DPORT
  · simp only [created_step, if_neg h1, if_neg h2, if_neg h3, if_neg h4,
      if_neg h5, if_neg h6, if_pos h7] at h
    rw [← Except.ok.inj h]
    exact ⟨fun hn => absurd h7 hn, fun _ => rfl⟩
  by_cases h8 : a.typ = MPTCP_ATTR_PATH_MANAGER
  · simp only [created_step, if_neg h1, if_neg h2, if_neg h3, if_neg h4,
      if_neg h5, if_neg h6, if_neg h7, if_pos h8] at h
    split_ifs at h <;>
      (rw [← Except.ok.inj h]; exact ⟨fun _ => rfl, fun _ => rfl⟩)
  by_cases h9 : a.typ = MPTCP_ATTR_BACKUP
  · simp only [created_step, if_neg h1, if_neg h2, if_neg h3, if_neg h4,
      if_neg h5, if_neg h6, if_neg h7, if_neg h8, if_pos h9] at h
    split_ifs at h
    · rw [← Except.ok.inj h]
      exact ⟨fun _ => rfl, fun hn => absurd h9 hn⟩
  · simp only [created_step, if_neg h1, if_neg h2, if_neg h3, if_neg h4,
      if_neg h5, if_neg h6, if_neg h7, if_neg h8, if_neg h9] at h
    rw [← Except.ok.inj h]
    exact ⟨fun _ => rfl, fun _ => rfl⟩

lemma created_step_rport (st st2 : CreatedSlots × List DLog) (a : Attr)
    (hty : a.typ ≠ MPTCP_ATTR_DPORT)
    (h : created_step st a = Except.ok st2) :
    st2.1.rport = st.1.rport :=
  (created_step_preserve st st2 a h).1 hty

lemma created_fold_rport :
    ∀ (msg : List Attr) (st : CreatedSlots × List DLog)
      (s : CreatedSlots) (logs : List DLog),
    (∀ a ∈ msg, a.typ ≠ MPTCP_ATTR_DPORT) →
    created_fold st msg = Except.ok (s, logs) →
    s.rport = st.1.rport := by
  intro msg
  induction msg with
  | nil =>
    intro st s logs _ h
    simp only [created_fold] at h
    injection h with h2
    rw [h2]
  | cons a rest ih =>
    intro st s logs hall h
    simp only [created_fold] at h
    cases hstep : created_step st a with
    | error e =>
      simp only [hstep] at h
      exact Except.noConfusion h
    | ok st2 =>
      simp only [hstep] at h
      have h1 := ih st2 s logs (fun x hx => hall x (List.mem_cons_of_mem _ hx)) h
      have h2 := created_step_rport st st2 a (hall a (List.mem_cons_self _ _)) hstep
      rw [h1, h2]

lemma created_step_backup (st st2 : CreatedSlots × List DLog) (a : Attr)
    (hty : a.typ ≠ MPTCP_ATTR_BACKUP)
    (h : created_step st a = Except.ok st2) :
    st2.1.backup = st.1.backup :=
  (created_step_preserve st st2 a h).2 hty

lemma created_fold_backup :
    ∀ (msg : List Attr) (st : CreatedSlots × List DLog)
      (s : CreatedSlots) (logs : List DLog),
    (∀ a ∈ msg, a.typ ≠ MPTCP_ATTR_BACKUP) →
    created_fold st msg = Except.ok (s, logs) →
    s.backup = st.1.backup := by
  intro msg
  induction msg with
  | nil =>
    intro st s logs _ h
    simp only [created_fold] at h
    injection h with h2
    rw [h2]
  | cons a rest ih =>
    intro st s logs hall h
    simp only [created_fold] at h
    cases hstep : created_step st a with
    | error e =>
      simp only [hstep] at h
      exact Except.noConfusion h
    | ok st2 =>
      simp only [hstep] at h
      have h1 := ih st2 s logs (fun x hx => hall x (List.mem_cons_of_mem _ hx)) h
      have h2 := created_step_backup st st2 a (hall a (List.mem_cons_self _ _)) hstep
      rw [h1, h2]

lemma announcedExpected_remid : announcedExpected MPTCP_ATTR_REM_ID = some AID_SIZE := by
  decide

lemma announced_step_invalid (st : AnnouncedSlots × List DLog) (a : Attr)
    (e : Nat)
    (hexp : announcedExpected a.typ = some e)
    (hlen : a.len ≠ e) :
    announced_step st a = (st.1, st.2 ++ [DLog.attrLen a.len e]) := by
  unfold announcedExpected at hexp
  unfold announced_step
  split_ifs at hexp with h1 h2 h3 h4 h5
  · injection hexp with he
    subst he
    rw [if_pos h1]
    simp [mptcp_get_nl_attr, validate_attr_len, hlen]
  · injection hexp with he
    subst he
    rw [if_neg h1, if_pos h2]
    simp [mptcp_get_nl_attr, validate_attr_len, hlen]
  · injection hexp with he
    subst he
    rw [if_neg h1, if_neg h2, if_pos h3]
    simp [mptcp_get_nl_attr, validate_attr_len, hlen]
  · injection hexp with he
    subst he
    rw [if_neg h1, if_neg h2, if_neg h3, if_pos h4]
    simp [mptcp_get_nl_attr, validate_attr_len, hlen]
  · injection hexp with he
    subst he
    rw [if_neg h1, if_neg h2, if_neg h3, if_neg h4, if_pos h5]
    simp [mptcp_get_nl_attr, validate_attr_len, hlen]

lemma announced_step_logs (st : AnnouncedSlots × List DLog) (a : Attr) :
    ∃ add, (announced_step st a).2 = st.2 ++ add := by
  simp only [announced_step, mptcp_get_nl_attr, validate_attr_len]
  split_ifs <;> exact ⟨_, rfl⟩

lemma announced_fold_logs_mono :
    ∀ (msg : List Attr) (st : AnnouncedSlots × List DLog) (l : DLog),
    l ∈ st.2 → l ∈ (announced_fold st msg).2 := by
  intro msg
  induction msg with
  | nil => intro st l h; simpa [announced_fold] using h
  | cons a rest ih =>
    intro st l h
    simp only [announced_fold]
    apply ih
    obtain ⟨add, hadd⟩ := announced_step_logs st a
    rw [hadd]
    exact List.mem_append_left _ h

lemma announced_fold_remid_log :
    ∀ (msg : List Attr) (st : AnnouncedSlots × List DLog),
    (∃ a ∈ msg, a.typ = MPTCP_ATTR_REM_ID ∧ a.len = 2) →
    DLog.attrLen 2 AID_SIZE ∈ (announced_fold st msg).2 := by
  intro msg
  induction msg with
  | nil => intro st h; simp at h
  | cons a rest ih =>
    intro st h
    simp only [announced_fold]
    rcases h with ⟨b, hb, hbty, hblen⟩
    rcases List.mem_cons.mp hb with hb1 | hb2
    · subst hb1
      have hstep := announced_step_invalid st b AID_SIZE
        (by rw [hbty]; exact announcedExpected_remid) (by rw [hblen]; decide)
      apply announced_fold_logs_mono
      rw [hstep, hblen]
      simp
    · exact ih _ ⟨b, hb2, hbty, hblen⟩

lemma announced_step_address_id (st : AnnouncedSlots × List DLog) (a : Attr)
    (hty : a.typ = MPTCP_ATTR_REM_ID → a.len ≠ AID_SIZE) :
    (announced_step st a).1.address_id = st.1.address_id := by
  simp only [announced_step, mptcp_get_nl_attr, validate_attr_len]
  split_ifs with h1 h2 h3 h4 h5 h6 <;> try rfl
  all_goals simp_all

lemma announced_fold_address_id :
    ∀ (msg : List Attr) (st : AnnouncedSlots × List DLog),
    (∀ a ∈ msg, a.typ = MPTCP_ATTR_REM_ID → a.len ≠ AID_SIZE) →
    (announced_fold st msg).1.address_id = st.1.address_id := by
  intro msg
  induction msg with
  | nil => intro st _; rfl
  | cons a rest ih =>
    intro st hall
    simp only [announced_fold]
    rw [ih _ (fun x hx => hall x (List.mem_cons_of_mem _ hx))]
    exact announced_step_address_id st a (hall a (List.mem_cons_self _ _))

/-! ## Claims about the plugin dispatch layer -/

/-- C1: for a dispatched CREATED event, the token binding is
inserted before the plugin sees new_connection — the post-dispatch
state holds the binding to the resolved ops, and the hook call the
same dispatch makes targets exactly that inserted ops record — and
for every subsequently dispatched event carrying the same token the
ops the dispatcher resolves by token lookup equals the ops inserted
at that CREATED.  The hypotheses say the token was not already bound
and is not re-created later, matching the kernel contract of one
CREATED per live token. -/
theorem C1_token_binding (s0 : PluginState) (n : Option String) (t : Nat)
    (o : PluginOps) (es : List PmEvent)
    (hres : (name_to_ops s0 n).1 = some o)
    (hfresh : hashmap_lookup s0.token_to_ops_map t = none)
    (_hes : ∀ e ∈ es, e.createdToken ≠ some t) :
    hashmap_lookup (dispatchStep s0 (PmEvent.created n t)).token_to_ops_map t
        = some (some o)
    ∧ (dispatch s0 (PmEvent.created n t)).2.2
        = (if o.new_connection then
             some { opsId := o.id, hook := Hook.newConnection }
           else none)
    ∧ (token_to_ops (runEvents (dispatchStep s0 (PmEvent.created n t)) es) t).1
        = some o := by
  have hmap : (dispatchStep s0 (PmEvent.created n t)).token_to_ops_map
      = s0.token_to_ops_map ++ [(t, some o)] := by
    rw [dispatchStep_created]
    simp [hres]
  have hlook : hashmap_lookup
      (dispatchStep s0 (PmEvent.created n t)).token_to_ops_map t
      = some (some o) := by
    rw [hmap, hashmap_lookup_append_none _ _ _ hfresh]
    simp [hashmap_lookup]
  refine ⟨hlook, ?_, ?_⟩
  · simp [dispatch, mptcpd_plugin_new_connection, hres]
  · have hrun := runEvents_lookup_some t (some o) es _ hlook
    simp [token_to_ops, hrun]

/-- Witness for C1_token_binding: plugin rr is the default; CREATED
with no path-manager name binds token 0xA1B2C3D4; a CLOSED and a
CREATED for other tokens and an ANNOUNCED for this token follow. -/
theorem C1_token_binding_witness :
    hashmap_lookup
        (dispatchStep wS1 (PmEvent.created none 2712847316)).token_to_ops_map
        2712847316 = some (some (fullOps 1))
    ∧ (dispatch wS1 (PmEvent.created none 2712847316)).2.2
        = (if (fullOps 1).new_connection then
             some { opsId := (fullOps 1).id, hook := Hook.newConnection }
           else none)
    ∧ (token_to_ops
        (runEvents (dispatchStep wS1 (PmEvent.created none 2712847316)) wEs1)
        2712847316).1 = some (fullOps 1) :=
  C1_token_binding wS1 none 2712847316 (fullOps 1) wEs1
    (by decide) (by decide) (by decide)

/-- C2: a CREATED event whose path-manager name is not a registry
key logs the strategy-does-not-exist error (and the falling-back
notice), resolves the default ops instead, inserts the
token-to-default-ops binding, and invokes the default ops
new_connection hook (hypothesis: the default plugin set that
hook). -/
theorem C2_unknown_name_default (s : PluginState) (n : String) (t : Nat)
    (d : PluginOps)
    (hmiss : hashmap_lookup s.pm_plugins n = none)
    (hdef : s.default_ops = some d)
    (hhook : d.new_connection = true) :
    name_to_ops s (some n) = (some d, [PLog.strategyNoExist n, PLog.fallingBack])
    ∧ (dispatch s (PmEvent.created (some n) t)).1.token_to_ops_map
        = s.token_to_ops_map ++ [(t, some d)]
    ∧ (dispatch s (PmEvent.created (some n) t)).2.1
        = [PLog.strategyNoExist n, PLog.fallingBack]
    ∧ (dispatch s (PmEvent.created (some n) t)).2.2
        = some { opsId := d.id, hook := Hook.newConnection } := by
  have hname : name_to_ops s (some n)
      = (some d, [PLog.strategyNoExist n, PLog.fallingBack]) := by
    simp [name_to_ops, hmiss, hdef]
  refine ⟨hname, ?_, ?_, ?_⟩ <;>
    simp [dispatch, mptcpd_plugin_new_connection, hname, hhook]

/-- Witness for C2_unknown_name_default: registry rr then bw, a
CREATED carrying the unknown name zzz falls back on rr. -/
theorem C2_unknown_name_default_witness :
    name_to_ops wS2 (some ("zzz"))
        = (some (fullOps 1), [PLog.strategyNoExist ("zzz"), PLog.fallingBack])
    ∧ (dispatch wS2 (PmEvent.created (some ("zzz")) 100)).1.token_to_ops_map
        = wS2.token_to_ops_map ++ [(100, some (fullOps 1))]
    ∧ (dispatch wS2 (PmEvent.created (some ("zzz")) 100)).2.1
        = [PLog.strategyNoExist ("zzz"), PLog.fallingBack]
    ∧ (dispatch wS2 (PmEvent.created (some ("zzz")) 100)).2.2
        = some { opsId := (fullOps 1).id, hook := Hook.newConnection } :=
  C2_unknown_name_default wS2 ("zzz") 100 (fullOps 1)
    (by decide) (by decide) (by decide)

/-- C3: for any dispatched event other than CREATED whose token has
no entry in the token-to-ops map, the dispatch logs exactly the
token-match error, invokes no hook, and returns the state unchanged
(both mappings intact); the constant result shows the default ops
is never consulted as a fallback. -/
theorem C3_unknown_token_drop (s : PluginState) (e : PmEvent)
    (hnc : e.createdToken = none)
    (hmiss : hashmap_lookup s.token_to_ops_map e.token = none) :
    dispatch s e = (s, [PLog.noTokenMatch], none) := by
  cases e with
  | created n t => simp [PmEvent.createdToken] at hnc
  | established t =>
    simp only [PmEvent.token] at hmiss
    simp [dispatch, mptcpd_plugin_connection_established, token_to_ops, hmiss]
  | closed t =>
    simp only [PmEvent.token] at hmiss
    simp [dispatch, mptcpd_plugin_connection_closed, token_to_ops, hmiss]
  | announced t =>
    simp only [PmEvent.token] at hmiss
    simp [dispatch, mptcpd_plugin_new_address, token_to_ops, hmiss]
  | removed t =>
    simp only [PmEvent.token] at hmiss
    simp [dispatch, mptcpd_plugin_address_removed, token_to_ops, hmiss]
  | subEstablished t =>
    simp only [PmEvent.token] at hmiss
    simp [dispatch, mptcpd_plugin_new_subflow, token_to_ops, hmiss]
  | subClosed t =>
    simp only [PmEvent.token] at hmiss
    simp [dispatch, mptcpd_plugin_subflow_closed, token_to_ops, hmiss]
  | subPriority t =>
    simp only [PmEvent.token] at hmiss
    simp [dispatch, mptcpd_plugin_subflow_priority, token_to_ops, hmiss]

/-- Witness for C3_unknown_token_drop: a CLOSED for the unknown
token 0xDEAD against a registry with one live binding. -/
theorem C3_unknown_token_drop_witness :
    dispatch wS3 (PmEvent.closed 57005) = (wS3, [PLog.noTokenMatch], none) :=
  C3_unknown_token_drop wS3 (PmEvent.closed 57005) (by decide) (by decide)

/-- C9 counterexample: with configured default name dd, the first
successful registration (aa) assigns default_ops, and a later
successful registration whose name equals dd reassigns it — so
default_ops is not assigned exactly once and a later registration
does reassign it, contrary to the claim. -/
theorem C9_reassignment_counterexample :
    (mptcpd_plugin_register_ops (initPluginState ("dd"))
        (some ("aa")) (some (fullOps 1))).2.1 = true
    ∧ c9s1.default_ops = some (fullOps 1)
    ∧ (mptcpd_plugin_register_ops c9s1 (some ("dd")) (some (fullOps 2))).2.1 = true
    ∧ (mptcpd_plugin_register_ops c9s1
        (some ("dd")) (some (fullOps 2))).1.default_ops = some (fullOps 2)
    ∧ fullOps 1 ≠ fullOps 2 := by
  refine ⟨by decide, by decide, by decide, by decide, by decide⟩

/-- C9 amended: across any run of register_ops calls from a fresh
registry with configured default name dn, default_ops ends as the
ops of the last successful registration whose name equals dn, or —
when no successful registration matches — the ops of the first
successful registration, or none when no registration succeeded.
In particular a later matching registration reassigns it. -/
theorem C9_default_ops_characterisation (dn : String) (rs : List RegReq) :
    (runRegs dn rs).default_ops =
      (match lastMatch (fun r => r.successful && decide (r.name = some dn)) rs with
       | some r => r.ops
       | none =>
         match rs.find? RegReq.successful with
         | some r => r.ops
         | none => none) := by
  have h := runRegs_default_aux dn rs (initPluginState dn) rfl
  unfold runRegs
  rw [h]
  cases lastMatch (fun r => r.successful && decide (r.name = some dn)) rs with
  | some r => rfl
  | none =>
    cases rs.find? RegReq.successful with
    | some r => simp [initPluginState]
    | none => simp [initPluginState]

/-! ## Claims about the event decoder -/

/-- C4: a CREATED message decodes and dispatches only when token,
a local v4-or-v6 address, the local port, a remote v4-or-v6 address
and the remote port are all present; a CREATED with no remote-port
attribute is dropped with the required-attributes error logged and
no dispatch; and a CREATED with no BACKUP attribute that does
dispatch carries backup = false. -/
theorem C4_created_decode :
    (∀ (msg : List Attr) (ldst rdst : List Nat) (s : CreatedSlots)
       (logs : List DLog) (ev : CreatedEv),
      created_fold (CreatedSlots.start, []) msg = Except.ok (s, logs) →
      (handle_connection_created msg ldst rdst).out = DecodeOut.ok ev →
      createdRequired s = true)
    ∧ (∀ (msg : List Attr) (ldst rdst : List Nat) (s : CreatedSlots)
         (logs : List DLog),
      created_fold (CreatedSlots.start, []) msg = Except.ok (s, logs) →
      (∀ a ∈ msg, a.typ ≠ MPTCP_ATTR_DPORT) →
      (handle_connection_created msg ldst rdst).out = DecodeOut.drop
        ∧ DLog.requiredMissing MPTCP_EVENT_CREATED
            ∈ (handle_connection_created msg ldst rdst).logs)
    ∧ (∀ (msg : List Attr) (ldst rdst : List Nat) (ev : CreatedEv),
      (∀ a ∈ msg, a.typ ≠ MPTCP_ATTR_BACKUP) →
      (handle_connection_created msg ldst rdst).out = DecodeOut.ok ev →
      ev.backup = false) := by
  refine ⟨?_, ?_, ?_⟩
  · intro msg ldst rdst s logs ev hfold hok
    simp only [handle_connection_created, hfold] at hok
    by_cases hreq : createdRequired s
    · exact hreq
    · simp [hreq] at hok
  · intro msg ldst rdst s logs hfold hnone
    have hrp : s.rport = none :=
      created_fold_rport msg (CreatedSlots.start, []) s logs hnone hfold
    have hreq : createdRequired s = false := by
      simp [createdRequired, hrp]
    constructor
    · simp [handle_connection_created, hfold, hreq]
    · simp [handle_connection_created, hfold, hreq]
  · intro msg ldst rdst ev hnone hok
    cases hfold : created_fold (CreatedSlots.start, []) msg with
    | error e =>
      simp [handle_connection_created, hfold] at hok
    | ok p =>
      obtain ⟨s, logs⟩ := p
      have hbk : s.backup = false :=
        created_fold_backup msg (CreatedSlots.start, []) s logs hnone hfold
      simp only [handle_connection_created, hfold] at hok
      by_cases hreq : createdRequired s
      · simp only [hreq, if_pos] at hok
        have hev := DecodeOut.ok.inj hok
        rw [← hev]
        exact hbk
      · simp [hreq] at hok

/-- Witness for C4_created_decode: a fully populated IPv4 CREATED
message decodes (all required slots present, backup false), and the
same message without its DPORT attribute is dropped with the
required-attributes error. -/
theorem C4_created_decode_witness :
    createdRequired wSlotsCreatedOk = true
    ∧ ((handle_connection_created wMsgCreatedNoDport [] []).out = DecodeOut.drop
        ∧ DLog.requiredMissing MPTCP_EVENT_CREATED
            ∈ (handle_connection_created wMsgCreatedNoDport [] []).logs)
    ∧ wEvCreatedOk.backup = false := by
  refine ⟨?_, ?_, ?_⟩
  · exact C4_created_decode.1 wMsgCreatedOk [] [] wSlotsCreatedOk [] wEvCreatedOk
      (by rfl) (by decide)
  · exact C4_created_decode.2.1 wMsgCreatedNoDport [] [] wSlotsCreatedNoDport []
      (by rfl) (by decide)
  · exact C4_created_decode.2.2 wMsgCreatedOk [] [] wEvCreatedOk
      (by decide) (by decide)

/-- C5: an attribute whose declared length differs from the expected
size for its type leaves the decoded slot untouched and adds exactly
the attribute-length error log (announced-event loop, all
attribute types it decodes); and an ANNOUNCED message whose REM_ID
attributes have length 2 instead of 1 is dropped with both an
attribute-length error and a required-attributes error logged and no
dispatch. -/
theorem C5_attr_length_validation :
    (∀ (st : AnnouncedSlots × List DLog) (a : Attr) (e : Nat),
      announcedExpected a.typ = some e →
      a.len ≠ e →
      announced_step st a = (st.1, st.2 ++ [DLog.attrLen a.len e]))
    ∧ (∀ (msg : List Attr) (dst6 : List Nat),
      (∃ a ∈ msg, a.typ = MPTCP_ATTR_REM_ID ∧ a.len = 2) →
      (∀ a ∈ msg, a.typ = MPTCP_ATTR_REM_ID → a.len ≠ AID_SIZE) →
      (handle_new_addr msg dst6).out = DecodeOut.drop
        ∧ DLog.attrLen 2 AID_SIZE ∈ (handle_new_addr msg dst6).logs
        ∧ DLog.requiredMissing MPTCP_EVENT_ANNOUNCED
            ∈ (handle_new_addr msg dst6).logs) := by
  refine ⟨announced_step_invalid, ?_⟩
  intro msg dst6 hbad hnone
  have hid : (announced_fold (AnnouncedSlots.start, []) msg).1.address_id = none :=
    announced_fold_address_id msg (AnnouncedSlots.start, []) hnone
  have hlog : DLog.attrLen 2 AID_SIZE
      ∈ (announced_fold (AnnouncedSlots.start, []) msg).2 :=
    announced_fold_remid_log msg (AnnouncedSlots.start, []) hbad
  have hreq : announcedRequired (announced_fold (AnnouncedSlots.start, []) msg).1
      = false := by
    simp [announcedRequired, hid]
  refine ⟨?_, ?_, ?_⟩
  · simp [handle_new_addr, hreq]
  · simp only [handle_new_addr, hreq]
    simp only [Bool.false_eq_true, if_false]
    exact List.mem_append_left _ hlog
  · simp only [handle_new_addr, hreq]
    simp only [Bool.false_eq_true, if_false]
    simp

/-- Witness for C5_attr_length_validation: the concrete REM_ID
attribute of length 2 leaves the slots of a fresh walk unchanged and
logs the length error; the S4 message (token, REM_ID of length 2,
valid v4 address, port) is dropped with both error logs. -/
theorem C5_attr_length_validation_witness :
    announced_step (AnnouncedSlots.start, []) wAttrRemIdLen2
        = (AnnouncedSlots.start, [DLog.attrLen 2 AID_SIZE])
    ∧ ((handle_new_addr wMsgAnnBadRemId []).out = DecodeOut.drop
        ∧ DLog.attrLen 2 AID_SIZE ∈ (handle_new_addr wMsgAnnBadRemId []).logs
        ∧ DLog.requiredMissing MPTCP_EVENT_ANNOUNCED
            ∈ (handle_new_addr wMsgAnnBadRemId []).logs) := by
  constructor
  · have h := C5_attr_length_validation.1 (AnnouncedSlots.start, [])
      wAttrRemIdLen2 AID_SIZE (by decide) (by decide)
    simpa [wAttrRemIdLen2] using h
  · exact C5_attr_length_validation.2 wMsgAnnBadRemId [] (by decide) (by decide)

/-- C6: the handlers for ESTABLISHED, REMOVED and SUB_PRIORITY log
only that they are unimplemented and drop every message — no record
is decoded and nothing reaches the dispatcher, for any attribute
payload whatsoever. -/
theorem C6_unimplemented_handlers (msg : List Attr) :
    handle_connection_established msg
        = { logs := [DLog.unimplemented MPTCP_EVENT_ESTABLISHED],
            out := DecodeOut.drop }
    ∧ handle_addr_removed msg
        = { logs := [DLog.unimplemented MPTCP_EVENT_REMOVED],
            out := DecodeOut.drop }
    ∧ handle_priority_changed msg
        = { logs := [DLog.unimplemented MPTCP_EVENT_SUB_PRIORITY],
            out := DecodeOut.drop } :=
  ⟨rfl, rfl, rfl⟩

/-- C7: decoding a validated 16-byte IPv6 address copies only its
first byte — the stored bytes are the first source byte followed by
the fifteen leftover bytes of the uninitialised destination, not the
sixteen source bytes; shown both at get_mptcpd_addr (with a zeroed
destination) and end to end through an ANNOUNCED message.  The
family tag is correctly v6. -/
theorem C7_ipv6_one_byte_copy :
    get_mptcpd_addr none (some wAddr6) [0, 80] (List.replicate 16 0)
        = some { family := Family.v6, bytes := 32 :: List.replicate 15 0,
                 port := [0, 80] }
    ∧ (32 :: List.replicate 15 0 ≠ wAddr6)
    ∧ (handle_new_addr wMsgAnnV6 (List.replicate 16 0)).out
        = DecodeOut.ok
            { token := [1, 2, 3, 4], address_id := [7],
              addr := some { family := Family.v6,
                             bytes := 32 :: List.replicate 15 0,
                             port := [0, 80] } } := by
  refine ⟨by decide, by decide, by decide⟩

/-- C8 counterexample: a CREATED message whose BACKUP attribute has
length 1 makes handle_connection_created log the attribute-length
error and then fail the assert — the process aborts instead of
handling the malformed flag gracefully. -/
theorem C8_backup_abort_counterexample :
    handle_connection_created
        [{ typ := MPTCP_ATTR_BACKUP, len := 1, data := [9] }] [] []
      = { logs := [DLog.attrLen 1 0], out := DecodeOut.abort } := by
  decide

/-- C8 amended: a zero-length BACKUP attribute (NULL payload)
decodes the backup boolean to true; a BACKUP attribute with non-zero
length logs the attribute-length error and fails
assert(validate_attr_len(len, 0)), aborting event processing. -/
theorem C8_backup_flag_semantics :
    (∀ (st : CreatedSlots × List DLog) (a : Attr),
      a.typ = MPTCP_ATTR_BACKUP → a.len = 0 → a.data = [] →
      created_step st a = Except.ok ({ st.1 with backup := true }, st.2))
    ∧ (∀ (st : CreatedSlots × List DLog) (a : Attr),
      a.typ = MPTCP_ATTR_BACKUP → a.len ≠ 0 →
      created_step st a = Except.error (st.2 ++ [DLog.attrLen a.len 0])) := by
  constructor
  · intro st a hty hlen hdata
    simp [created_step, hty, MPTCP_ATTR_TOKEN, MPTCP_ATTR_SADDR4,
      MPTCP_ATTR_SADDR6, MPTCP_ATTR_SPORT, MPTCP_ATTR_DADDR4,
      MPTCP_ATTR_DADDR6, MPTCP_ATTR_DPORT, MPTCP_ATTR_PATH_MANAGER,
      MPTCP_ATTR_BACKUP, validate_attr_len, hlen, hdata]
  · intro st a hty hlen
    simp [created_step, hty, MPTCP_ATTR_TOKEN, MPTCP_ATTR_SADDR4,
      MPTCP_ATTR_SADDR6, MPTCP_ATTR_SPORT, MPTCP_ATTR_DADDR4,
      MPTCP_ATTR_DADDR6, MPTCP_ATTR_DPORT, MPTCP_ATTR_PATH_MANAGER,
      MPTCP_ATTR_BACKUP, validate_attr_len, hlen]

/-- Witness for C8_backup_flag_semantics: the zero-length flag on a
fresh walk sets backup, and the length-1 flag aborts with the
length error. -/
theorem C8_backup_flag_semantics_witness :
    created_step (CreatedSlots.start, [])
        { typ := MPTCP_ATTR_BACKUP, len := 0, data := [] }
      = Except.ok ({ CreatedSlots.start with backup := true }, [])
    ∧ created_step (CreatedSlots.start, [])
        { typ := MPTCP_ATTR_BACKUP, len := 1, data := [9] }
      = Except.error [DLog.attrLen 1 0] := by
  constructor
  · exact C8_backup_flag_semantics.1 (CreatedSlots.start, [])
      { typ := MPTCP_ATTR_BACKUP, len := 0, data := [] } rfl rfl rfl
  · have h := C8_backup_flag_semantics.2 (CreatedSlots.start, [])
      { typ := MPTCP_ATTR_BACKUP, len := 1, data := [9] } rfl (by decide)
    simpa using h

/-- C10: when both an IPv4 and an IPv6 address pointer are set,
get_mptcpd_addr is total, deterministic and returns the IPv4
address regardless of the IPv6 payload; end to end, a CREATED
message whose walk left both local slots set decodes the local
endpoint to the IPv4 bytes. -/
theorem C10_v4_preferred :
    (∀ (a4 : List Nat) (o6 : Option (List Nat)) (p dst6 : List Nat),
      get_mptcpd_addr (some a4) o6 p dst6
        = some { family := Family.v4, bytes := a4, port := p })
    ∧ (∀ (msg : List Attr) (ldst rdst : List Nat) (s : CreatedSlots)
         (logs : List DLog) (a4 : List Nat) (ev : CreatedEv),
      created_fold (CreatedSlots.start, []) msg = Except.ok (s, logs) →
      s.laddr4 = some a4 →
      (handle_connection_created msg ldst rdst).out = DecodeOut.ok ev →
      ev.laddr = some { family := Family.v4, bytes := a4,
                        port := s.lport.getD [] }) := by
  constructor
  · intro a4 o6 p dst6
    rfl
  · intro msg ldst rdst s logs a4 ev hfold hl4 hok
    simp only [handle_connection_created, hfold] at hok
    by_cases hreq : createdRequired s
    · simp only [hreq, if_pos] at hok
      have hev := DecodeOut.ok.inj hok
      rw [← hev]
      simp [get_mptcpd_addr, hl4]
    · simp [hreq] at hok

/-- Witness for C10_v4_preferred: concrete IPv4 bytes win over the
concrete IPv6 attribute, both directly and through the CREATED
message carrying both addresses. -/
theorem C10_v4_preferred_witness :
    get_mptcpd_addr (some [10, 0, 0, 1]) (some wAddr6) [4, 210] []
        = some { family := Family.v4, bytes := [10, 0, 0, 1], port := [4, 210] }
    ∧ wEvCreatedBoth.laddr
        = some { family := Family.v4, bytes := [10, 0, 0, 1],
                 port := wSlotsCreatedBoth.lport.getD [] } := by
  constructor
  · exact C10_v4_preferred.1 [10, 0, 0, 1] (some wAddr6) [4, 210] []
  · exact C10_v4_preferred.2 wMsgCreatedBoth [] [] wSlotsCreatedBoth []
      [10, 0, 0, 1] wEvCreatedBoth (by rfl) (by decide) (by decide)

end Mptcpd
